import Mathlib

/-!
Shallow embedding of the osc-os boot stub (src/boot-stub) together with
theorems settling the specification claims about it.

Machine integers (`u8`, `u16`, `u32`, `u64`, `usize`) are modelled as `Nat`,
with an explicit `% 2 ^ 64` at the arithmetic steps where the source's
wrapping behaviour matters.  Byte buffers are `List Nat`.  Fallible firmware
calls are modelled with `Except`, the firmware itself as a record of oracles.
-/

namespace OscOs

/-! ## Page-table entry decoding — src/boot-stub/src/arch/x86_64/paging.rs -/

namespace Paging

/-- `PageTableEntryFlags::PRESENT` (paging.rs line 56). -/
def PRESENT : Nat := 0b00000001

/-- `PageTableEntryFlags::WRITABLE` (paging.rs line 57). -/
def WRITABLE : Nat := 0b00000010

/-- `PageTableEntryFlags::USER_ACCESSIBLE` (paging.rs line 58). -/
def USER_ACCESSIBLE : Nat := 0b00000100

/-- `PageTableEntryFlags::WRITE_THROUGH` (paging.rs line 59). -/
def WRITE_THROUGH : Nat := 0b00001000

/-- `PageTableEntryFlags::DISABLE_CACHE` (paging.rs line 60). -/
def DISABLE_CACHE : Nat := 0b00010000

/-- `PageTableEntryFlags::ACCESSED` (paging.rs line 61). -/
def ACCESSED : Nat := 0b00100000

/-- `PageTableEntryFlags::DIRTY` (paging.rs line 62). -/
def DIRTY : Nat := 0b01000000

/-- `PageTableEntryFlags::HUGE_PAGE` (paging.rs line 63). -/
def HUGE_PAGE : Nat := 0b10000000

/-- `PageTableEntryFlags::GLOBAL` (paging.rs line 66). -/
def GLOBAL : Nat := 0b00000001 <<< 8

/-- `PageTableEntryFlags::NO_EXECUTE` (paging.rs line 69). -/
def NO_EXECUTE : Nat := 0b10000000 <<< 56

/-- `PageTableEntry::FLAGS_MASK_B1` (paging.rs line 98). -/
def FLAGS_MASK_B1 : Nat := 0b11111111

/-- `PageTableEntry::FLAGS_MASK_B2` (paging.rs line 99). -/
def FLAGS_MASK_B2 : Nat := 0b00000001

/-- `PageTableEntry::FLAGS_MASK_B8` (paging.rs line 105); bytes 3..7 have mask 0. -/
def FLAGS_MASK_B8 : Nat := 0b10000000

/-- `PageTableEntry::FLAGS_MASK` (paging.rs lines 107-114); the zero
byte masks B3..B7 are elided from the disjunction. -/
def FLAGS_MASK : Nat := FLAGS_MASK_B8 <<< 56 ||| FLAGS_MASK_B2 <<< 8 ||| FLAGS_MASK_B1

/-- `PageTableEntry::PHYSICAL_ADDRESS_MASK` (paging.rs line 116). -/
def PHYSICAL_ADDRESS_MASK : Nat := 0x000FFFFFFFFFF000

/-- `PageTableEntry::flags` (paging.rs lines 118-124): the raw 64-bit entry
masked to the defined flag bits.  `PageTableEntry` is a transparent wrapper
over the raw `u64`, so the entry is its raw value here. -/
def flags (raw : Nat) : Nat := raw &&& FLAGS_MASK

/-- `PageTableEntry::physical_address` (paging.rs lines 126-131): bits 12..51
of the raw entry. -/
def physical_address (raw : Nat) : Nat := raw &&& PHYSICAL_ADDRESS_MASK

end Paging

/-! ## Interrupt descriptor decoding — src/boot-stub/src/arch/x86_64/interrupts.rs -/

namespace Interrupts

/-- `InterruptDescriptorType` (interrupts.rs lines 70-74). -/
inductive InterruptDescriptorType where
  | InterruptGate
  | TrapGate
  | Invalid (v : Nat)
deriving DecidableEq, Repr

/-- `InterruptDescriptor` (interrupts.rs lines 91-102); each field is the
corresponding little-endian machine integer. -/
structure InterruptDescriptor where
  offset_lower : Nat
  selector : Nat
  zero_and_reserved : Nat
  type_and_attributes : Nat
  offset_middle : Nat
  offset_high : Nat
  extended_reserved : Nat
deriving DecidableEq, Repr

/-- `InterruptDescriptor::TYPE_MASK` (interrupts.rs line 109). -/
def TYPE_MASK : Nat := 0b00001111

/-- `InterruptDescriptor::entry_type` (interrupts.rs lines 119-128). -/
def entry_type (d : InterruptDescriptor) : InterruptDescriptorType :=
  match d.type_and_attributes &&& TYPE_MASK with
  | 0b1110 => InterruptDescriptorType.InterruptGate
  | 0b1111 => InterruptDescriptorType.TrapGate
  | other => InterruptDescriptorType.Invalid other

end Interrupts

end OscOs

/-! ## Theorems for claims C8, C9, C10 -/

namespace OscOs

/-- C8: for every interrupt-descriptor entry, the 4-bit type nibble `0b1110`
decodes to `InterruptGate`, `0b1111` decodes to `TrapGate`, and every other
4-bit value `v` decodes to `Invalid v`, preserving exactly that value. -/
theorem interrupt_descriptor_entry_type_decode (d : Interrupts.InterruptDescriptor) :
    (Interrupts.entry_type d = Interrupts.InterruptDescriptorType.InterruptGate
        ↔ d.type_and_attributes &&& Interrupts.TYPE_MASK = 0b1110)
    ∧ (Interrupts.entry_type d = Interrupts.InterruptDescriptorType.TrapGate
        ↔ d.type_and_attributes &&& Interrupts.TYPE_MASK = 0b1111)
    ∧ (∀ v, Interrupts.entry_type d = Interrupts.InterruptDescriptorType.Invalid v
        ↔ (d.type_and_attributes &&& Interrupts.TYPE_MASK = v ∧ v ≠ 0b1110 ∧ v ≠ 0b1111)) := by
  unfold Interrupts.entry_type
  refine ⟨?_, ?_, ?_⟩
  · split <;> simp_all
  · split <;> simp_all
  · intro v
    split
    · rename_i h
      simp_all
    · rename_i h
      simp_all
    · rename_i h14 h15
      simp only [Interrupts.InterruptDescriptorType.Invalid.injEq]
      constructor
      · intro h
        exact ⟨h, fun hv => h14 (h.trans hv), fun hv => h15 (h.trans hv)⟩
      · intro hc
        exact hc.1

/-- C8 witness: a descriptor with type-and-attributes byte `0x8E` (present
interrupt gate) decodes to `InterruptGate`. -/
theorem interrupt_descriptor_entry_type_decode_witness :
    Interrupts.entry_type ⟨0, 0, 0, 0x8E, 0, 0, 0⟩
      = Interrupts.InterruptDescriptorType.InterruptGate :=
  (interrupt_descriptor_entry_type_decode ⟨0, 0, 0, 0x8E, 0, 0, 0⟩).1.mpr (by decide)

/-- C9 counterexample: the claim is false at its own concrete input.  In the
raw value `0x8000000000000803` the low set bits are bits 0, 1 and 11; the
huge-page flag is bit 7, which is clear, and bit 11 lies in the unused 9..11
range that `flags()` masks off.  So `flags()` does not report
PRESENT + WRITABLE + HUGE_PAGE + NO_EXECUTE. -/
theorem pte_decode_0x803_counterexample :
    ¬ (Paging.flags 0x8000000000000803
          = (Paging.PRESENT ||| Paging.WRITABLE ||| Paging.HUGE_PAGE ||| Paging.NO_EXECUTE)
        ∧ Paging.physical_address 0x8000000000000803 = 0) := by
  decide

/-- C9 amended: for the page-table entry with raw value `0x8000000000000803`,
`flags()` reports exactly PRESENT + WRITABLE + NO_EXECUTE (bit 11 of the raw
value lies in the unused 9..11 range and is ignored), and `physicalAddress()`
reports 0. -/
theorem pte_decode_0x803 :
    Paging.flags 0x8000000000000803
        = (Paging.PRESENT ||| Paging.WRITABLE ||| Paging.NO_EXECUTE)
      ∧ Paging.physical_address 0x8000000000000803 = 0 := by
  decide

/-- The concrete mask `0x000FFFFFFFFFF000` has exactly bits 12..51 set. -/
theorem physical_address_mask_testBit (i : Nat) :
    Nat.testBit Paging.PHYSICAL_ADDRESS_MASK i = decide (12 ≤ i ∧ i ≤ 51) := by
  by_cases h : i < 52
  · interval_cases i <;> decide
  · have hge : 52 ≤ i := Nat.le_of_not_lt h
    have h1 : Paging.PHYSICAL_ADDRESS_MASK < 2 ^ i :=
      lt_of_lt_of_le (by norm_num [Paging.PHYSICAL_ADDRESS_MASK])
        (Nat.pow_le_pow_right (by norm_num) hge)
    rw [Nat.testBit_lt_two_pow h1]
    symm
    simp only [decide_eq_false_iff_not]
    omega

/-- C10: for every raw page-table-entry value (in particular every 64-bit
one), `physicalAddress()` is a multiple of 4096 and strictly less than
`2 ^ 52`, and bit `i` of the result is bit `i` of the raw entry exactly when
`12 ≤ i ≤ 51` (bits 0..11 and everything from 52 up are always cleared). -/
theorem pte_physical_address_bits (raw : Nat) :
    Paging.physical_address raw % 4096 = 0
    ∧ Paging.physical_address raw < 2 ^ 52
    ∧ ∀ i, Nat.testBit (Paging.physical_address raw) i
        = (Nat.testBit raw i && decide (12 ≤ i ∧ i ≤ 51)) := by
  refine ⟨?_, ?_, ?_⟩
  · rw [show (4096 : Nat) = 2 ^ 12 by norm_num,
      ← Nat.and_pow_two_sub_one_eq_mod, Paging.physical_address, Nat.and_assoc]
    have h0 : Paging.PHYSICAL_ADDRESS_MASK &&& (2 ^ 12 - 1) = 0 := by decide
    rw [h0, Nat.and_zero]
  · exact lt_of_le_of_lt Nat.and_le_right (by norm_num [Paging.PHYSICAL_ADDRESS_MASK])
  · intro i
    rw [Paging.physical_address, Nat.testBit_and, physical_address_mask_testBit]

end OscOs

namespace OscOs

/-! ## ELF64 parsing — src/boot-stub/src/elf/mod.rs

The Rust code overlays `repr(C)` structs on the image buffer; on x86-64 the
fields are little-endian machine integers at fixed offsets.  The embedding
decodes the same offsets explicitly.  `FileHeaderCommon` occupies bytes
0..23, `FileHeader64` bytes 24..63, and each `ProgramHeader64` occupies 56
bytes (the `size_of` of the `repr(C)` struct).
-/

namespace Elf

/-- Little-endian read of `n` bytes of `buf` starting at `off` (out-of-range
bytes read as 0; the theorems that depend on real bytes carry length
hypotheses). -/
def readLE (buf : List Nat) (off : Nat) : Nat → Nat
  | 0 => 0
  | Nat.succ k => buf.getD off 0 + 256 * readLE buf (off + 1) k

/-- `FileHeaderCommon` (elf/mod.rs lines 69-80). -/
structure FileHeaderCommon where
  magic : List Nat
  architecture : Nat
  endianness : Nat
  header_version : Nat
  abi : Nat
  unused : List Nat
  binary_type : Nat
  instruction_set : Nat
  elf_version : Nat
deriving DecidableEq, Repr

/-- The overlay of `FileHeaderCommon` on the image buffer performed by
`ELF64::open` (elf/mod.rs lines 14-33): field bytes at their `repr(C)`
offsets. -/
def FileHeaderCommon.decode (buf : List Nat) : FileHeaderCommon where
  magic := [buf.getD 0 0, buf.getD 1 0, buf.getD 2 0, buf.getD 3 0]
  architecture := buf.getD 4 0
  endianness := buf.getD 5 0
  header_version := buf.getD 6 0
  abi := buf.getD 7 0
  unused := [buf.getD 8 0, buf.getD 9 0, buf.getD 10 0, buf.getD 11 0,
    buf.getD 12 0, buf.getD 13 0, buf.getD 14 0, buf.getD 15 0]
  binary_type := readLE buf 16 2
  instruction_set := readLE buf 18 2
  elf_version := readLE buf 20 4

/-- `FileHeaderCommon::is_magic_valid` (elf/mod.rs lines 83-85): the four
magic bytes compared against `\x7FELF`. -/
def FileHeaderCommon.is_magic_valid (h : FileHeaderCommon) : Bool :=
  h.magic == [0x7F, 0x45, 0x4C, 0x46]

/-- `FileHeader64` (elf/mod.rs lines 245-257). -/
structure FileHeader64 where
  program_entry : Nat
  program_header_table_position : Nat
  section_header_table_position : Nat
  flags : Nat
  header_size : Nat
  program_header_entry_size : Nat
  program_header_entry_count : Nat
  section_header_entry_size : Nat
  section_header_entry_count : Nat
  section_name_entry_index : Nat
deriving DecidableEq, Repr

/-- The overlay of `FileHeader64` at byte 24 of the buffer (the `size_of` of
`FileHeaderCommon`), performed by `ELF64::open` (elf/mod.rs lines 22-24). -/
def FileHeader64.decode (buf : List Nat) : FileHeader64 where
  program_entry := readLE buf 24 8
  program_header_table_position := readLE buf 32 8
  section_header_table_position := readLE buf 40 8
  flags := readLE buf 48 4
  header_size := readLE buf 52 2
  program_header_entry_size := readLE buf 54 2
  program_header_entry_count := readLE buf 56 2
  section_header_entry_size := readLE buf 58 2
  section_header_entry_count := readLE buf 60 2
  section_name_entry_index := readLE buf 62 2

/-- `ProgramHeader64` (elf/mod.rs lines 282-292). -/
structure ProgramHeader64 where
  segment_type : Nat
  flags : Nat
  offset : Nat
  vma : Nat
  lma : Nat
  size_in_file : Nat
  size_in_memory : Nat
  align : Nat
deriving DecidableEq, Repr, Inhabited

/-- The overlay of one `ProgramHeader64` at byte `pos` of the buffer:
`u32` type and flags, then six `u64` fields, per the `repr(C)` layout. -/
def ProgramHeader64.decode (buf : List Nat) (pos : Nat) : ProgramHeader64 where
  segment_type := readLE buf pos 4
  flags := readLE buf (pos + 4) 4
  offset := readLE buf (pos + 8) 8
  vma := readLE buf (pos + 16) 8
  lma := readLE buf (pos + 24) 8
  size_in_file := readLE buf (pos + 32) 8
  size_in_memory := readLE buf (pos + 40) 8
  align := readLE buf (pos + 48) 8

/-- `size_of::<ProgramHeader64>()` for the `repr(C)` struct: 4 + 4 + 6 * 8. -/
def programHeaderSize : Nat := 56

/-- `ELF64` (elf/mod.rs lines 3-10): a borrowed view over the image buffer.
The `header_common` and `header_64` references are overlays of that same
buffer, so only the buffer is stored; the headers are recovered by decoding. -/
structure ELF64 where
  buf : List Nat

/-- `ELF64::open` (elf/mod.rs lines 14-33).  The source performs no
validation (its own comment: TODO validation). -/
def ELF64.open (file : List Nat) : ELF64 := ⟨file⟩

/-- The `header_common` field view of `ELF64::open`. -/
def ELF64.header_common (e : ELF64) : FileHeaderCommon :=
  FileHeaderCommon.decode e.buf

/-- The `header_64` field view of `ELF64::open`. -/
def ELF64.header_64 (e : ELF64) : FileHeader64 :=
  FileHeader64.decode e.buf

/-- `ELF64::program_entries` (elf/mod.rs lines 35-45): a slice of
`program_header_entry_count` entries starting at
`program_header_table_position`, with the stride of the `repr(C)` struct
(56 bytes); the header's declared `program_header_entry_size` field is not
consulted. -/
def ELF64.program_entries (e : ELF64) : List ProgramHeader64 :=
  (List.range e.header_64.program_header_entry_count).map
    (fun i => ProgramHeader64.decode e.buf
      (e.header_64.program_header_table_position + i * programHeaderSize))

/-- Written from the spec words of C7 for comparison with the source's
`program_entries`: a view whose entry positions are determined by the
header's declared entry-size field. -/
def segmentEntriesSpec (buf : List Nat) : List ProgramHeader64 :=
  (List.range (FileHeader64.decode buf).program_header_entry_count).map
    (fun i => ProgramHeader64.decode buf
      ((FileHeader64.decode buf).program_header_table_position
        + i * (FileHeader64.decode buf).program_header_entry_size))

/-- `SegmentType` (elf/mod.rs lines 335-350). -/
inductive SegmentType where
  | Null
  | Load
  | Dynamic
  | Interpreter
  | Note
  | Shlib
  | ProgramHeaderTable
  | ThreadLocalStorage
  | GNUEHFrame
  | GNUStack
  | OperatingSystemSpecific (n : Nat)
  | ProcessorSpecific (n : Nat)
  | Other (n : Nat)
deriving DecidableEq, Repr

/-- `From<u32> for SegmentType` (elf/mod.rs lines 352-369).  Note the source
match has no arm producing `ThreadLocalStorage`; the raw value 7 falls to
`Other`. -/
def SegmentType.fromRaw (value : Nat) : SegmentType :=
  if value = 0x00 then SegmentType.Null
  else if value = 0x01 then SegmentType.Load
  else if value = 0x02 then SegmentType.Dynamic
  else if value = 0x03 then SegmentType.Interpreter
  else if value = 0x04 then SegmentType.Note
  else if value = 0x05 then SegmentType.Shlib
  else if value = 0x06 then SegmentType.ProgramHeaderTable
  else if value = 0x6474e550 then SegmentType.GNUEHFrame
  else if value = 0x6474e551 then SegmentType.GNUStack
  else if 0x60000000 ≤ value ∧ value ≤ 0x6FFFFFFF then
    SegmentType.OperatingSystemSpecific value
  else if 0x70000000 ≤ value ∧ value ≤ 0x7FFFFFFF then
    SegmentType.ProcessorSpecific value
  else SegmentType.Other value

/-- `ProgramHeader64::segment_type` (elf/mod.rs lines 297-299). -/
def ProgramHeader64.segmentType (e : ProgramHeader64) : SegmentType :=
  SegmentType.fromRaw e.segment_type

end Elf

end OscOs

namespace OscOs

/-! ## Theorems for claims C6, C7 -/

/-- C6: for every image buffer (of at least the four magic bytes),
`is_magic_valid()` on the opened image's common header is true iff the first
four bytes of the buffer are `0x7F, 'E', 'L', 'F'`; for any other first four
bytes it is false. -/
theorem is_magic_valid_iff (buf : List Nat) (h : 4 ≤ buf.length) :
    ((Elf.ELF64.open buf).header_common.is_magic_valid = true)
      ↔ buf.take 4 = [0x7F, 0x45, 0x4C, 0x46] := by
  match buf, h with
  | a :: b :: c :: d :: rest, _ =>
    simp [Elf.ELF64.open, Elf.ELF64.header_common, Elf.FileHeaderCommon.decode,
      Elf.FileHeaderCommon.is_magic_valid, List.getD]

/-- C6 witness: the magic check succeeds on a buffer starting with the ELF
signature. -/
theorem is_magic_valid_iff_witness :
    ((Elf.ELF64.open [0x7F, 0x45, 0x4C, 0x46, 2, 1]).header_common.is_magic_valid = true)
      ↔ List.take 4 [0x7F, 0x45, 0x4C, 0x46, 2, 1] = [0x7F, 0x45, 0x4C, 0x46] :=
  is_magic_valid_iff [0x7F, 0x45, 0x4C, 0x46, 2, 1] (by decide)

/-- A concrete 184-byte image for C7.  Its class header declares a
program-header-table position of 64, an entry count of 2, and an entry SIZE
of 64 — different from the 56-byte layout size.  Byte 120 (where the code
reads the second entry, at stride 56) holds segment type 2; byte 128 (where
the declared entry size would place the second entry) holds segment type 3. -/
def c7buf : List Nat :=
  [0x7F, 0x45, 0x4C, 0x46, 2, 1, 1, 0,
   0, 0, 0, 0, 0, 0, 0, 0,
   2, 0, 0x3E, 0, 1, 0, 0, 0,
   0, 0, 0, 0, 0, 0, 0, 0,
   0x40, 0, 0, 0, 0, 0, 0, 0,
   0, 0, 0, 0, 0, 0, 0, 0,
   0, 0, 0, 0,
   0x40, 0,
   0x40, 0,
   2, 0,
   0, 0, 0, 0, 0, 0,
   1, 0, 0, 0] ++ List.replicate 52 0 ++
  [2, 0, 0, 0] ++ List.replicate 4 0 ++
  [3, 0, 0, 0] ++ List.replicate 52 0

/-- C7 counterexample: entry positions are NOT determined by the header's
declared entry-size field.  On `c7buf` (declared entry size 64) the view the
code returns differs from the view computed with the declared entry size:
the source walks the table at the fixed 56-byte struct stride. -/
theorem program_entries_stride_counterexample :
    (Elf.ELF64.open c7buf).program_entries ≠ Elf.segmentEntriesSpec c7buf := by
  decide

/-- C7 amended: `segmentEntries()` returns the view of program-header
entries at the class header's program-header-table offset, spanning the
header's declared entry count, with each entry's position determined by the
fixed 56-byte `repr(C)` layout size — the header's declared entry-size
field is ignored. -/
theorem program_entries_layout (buf : List Nat) :
    ((Elf.ELF64.open buf).program_entries).length
        = (Elf.FileHeader64.decode buf).program_header_entry_count
    ∧ ∀ i, i < (Elf.FileHeader64.decode buf).program_header_entry_count →
        ((Elf.ELF64.open buf).program_entries).getD i default
          = Elf.ProgramHeader64.decode buf
              ((Elf.FileHeader64.decode buf).program_header_table_position + i * 56) := by
  constructor
  · simp [Elf.ELF64.program_entries, Elf.ELF64.header_64, Elf.ELF64.open]
  · intro i hi
    simp [Elf.ELF64.program_entries, Elf.ELF64.header_64, Elf.ELF64.open,
      Elf.programHeaderSize, List.getD, List.getElem?_map, List.getElem?_range hi]

/-- C7 witness: the layout theorem applied to the concrete image `c7buf`,
second entry (index 1): it sits at byte 64 + 56. -/
theorem program_entries_layout_witness :
    ((Elf.ELF64.open c7buf).program_entries).getD 1 default
      = Elf.ProgramHeader64.decode c7buf
          ((Elf.FileHeader64.decode c7buf).program_header_table_position + 1 * 56) :=
  (program_entries_layout c7buf).2 1 (by decide)

end OscOs

namespace OscOs

/-! ## Segment loader — src/boot-stub/src/loader/mod.rs lines 48-114

`Loader::<Ready>::transfer_to_kernel` filters the image's program-header
entries to the `Load` kind, and for each one (in order) computes the page
offset, the page count, allocates that many pages, copies the file bytes and
zero-fills the tail, and records a `(vma, physical)` mapping together with
the page count it reserved.
-/

namespace Loader

/-- The `usize`/`u64` modulus: the stub targets x86-64. -/
def U64 : Nat := 2 ^ 64

/-- One recorded load mapping: the segment's virtual address, the physical
address the allocator returned (`required_mappings.push((vma, target_raw))`,
loader/mod.rs line 113), and the page count reserved for it (the argument
passed to `allocate_pages`, lines 75-81). -/
structure LoadMapping where
  vma : Nat
  phys : Nat
  pageCount : Nat
deriving DecidableEq, Repr

/-- The filter `pe.segment_type() == SegmentType::Load`
(loader/mod.rs line 49). -/
def isLoad (e : Elf.ProgramHeader64) : Bool :=
  decide (e.segmentType = Elf.SegmentType.Load)

/-- `vma_offset = vma & 0xFFF` (loader/mod.rs line 70). -/
def vmaOffset (e : Elf.ProgramHeader64) : Nat := e.vma &&& 0xFFF

/-- `vma_page_count = (size_in_memory + vma_offset + 0xFFF) >> 12`
(loader/mod.rs line 72), with each `usize` addition wrapping at `2 ^ 64`. -/
def vmaPageCount (e : Elf.ProgramHeader64) : Nat :=
  (((e.size_in_memory + vmaOffset e) % U64 + 0xFFF) % U64) >>> 12

/-- The mapping-producing content of the load loop (loader/mod.rs lines
68-114): one `LoadMapping` per `Load`-kind entry, in program-header order,
skipping every other entry; `alloc` is the firmware page allocator viewed at
the call index and requested page count (allocation failure aborts the boot
via `unwrap_success`, so the produced mappings are those of the successful
run). -/
def loadSegments (alloc : Nat → Nat → Nat) :
    Nat → List Elf.ProgramHeader64 → List LoadMapping
  | _, [] => []
  | i, e :: es =>
    if isLoad e then
      { vma := e.vma, phys := alloc i (vmaPageCount e), pageCount := vmaPageCount e }
        :: loadSegments alloc (i + 1) es
    else loadSegments alloc i es

/-- Written from the spec words of C2: `ceil((memorySize + (virtualAddress
mod 4096)) / 4096)`, using the standard identity
`ceil(a / b) = (a + b - 1) / b` on naturals. -/
def specPageCount (e : Elf.ProgramHeader64) : Nat :=
  (e.size_in_memory + e.vma % 4096 + 4096 - 1) / 4096

/-- Written from the spec words of C2 for comparison with `loadSegments`:
exactly one mapping per `Load`-kind segment, in image order, none for any
other kind, whose page count is `specPageCount`. -/
def specMappings (alloc : Nat → Nat → Nat) :
    Nat → List Elf.ProgramHeader64 → List LoadMapping
  | _, [] => []
  | i, e :: es =>
    if isLoad e then
      { vma := e.vma, phys := alloc i (specPageCount e), pageCount := specPageCount e }
        :: specMappings alloc (i + 1) es
    else specMappings alloc i es

/-- `vma & 0xFFF` is `vma mod 4096`. -/
theorem vmaOffset_eq_mod (e : Elf.ProgramHeader64) : vmaOffset e = e.vma % 4096 := by
  have := Nat.and_pow_two_sub_one_eq_mod e.vma 12
  norm_num at this
  simpa [vmaOffset] using this

/-- When the page-count arithmetic does not wrap, the loader's shifted sum
is the spec's ceiling division. -/
theorem vmaPageCount_eq_spec (e : Elf.ProgramHeader64)
    (h : e.size_in_memory + e.vma % 4096 + 0xFFF < U64) :
    vmaPageCount e = specPageCount e := by
  have h1 : e.size_in_memory + e.vma % 4096 < U64 := by omega
  rw [vmaPageCount, vmaOffset_eq_mod, Nat.mod_eq_of_lt h1, Nat.mod_eq_of_lt h,
    Nat.shiftRight_eq_div_pow]
  have h2 : e.size_in_memory + e.vma % 4096 + 4096 - 1
      = e.size_in_memory + e.vma % 4096 + 4095 := by omega
  rw [specPageCount, h2]

end Loader

end OscOs

namespace OscOs

/-! ## Theorems for claim C2 -/

/-- C2 counterexample: a `Load` segment whose `memorySize` is `2 ^ 64 - 1`
(at `virtualAddress` 0).  The loader computes the page count in 64-bit
wrapping arithmetic, so `memorySize + 0xFFF` wraps to 4094 and the produced
page count is 0, not the ceiling `ceil(memorySize / 4096)`. -/
def hugeSegment : Elf.ProgramHeader64 where
  segment_type := 1
  flags := 0
  offset := 0
  vma := 0
  lma := 0
  size_in_file := 0
  size_in_memory := 2 ^ 64 - 1
  align := 0x1000

/-- C2 counterexample theorem: at `hugeSegment` the single produced mapping
does not carry the claimed ceiling page count. -/
theorem loader_pageCount_counterexample :
    (Loader.loadSegments (fun _ _ => 0) 0 [hugeSegment]).map Loader.LoadMapping.pageCount
      ≠ [Loader.specPageCount hugeSegment] := by
  decide

/-- C2 amended: for every segment of `Load` kind — and for no other — the
loader produces exactly one mapping, in program-header order, whose
`pageCount` is `ceil((memorySize + (virtualAddress mod 4096)) / 4096)`,
provided the 64-bit sum `memorySize + (virtualAddress mod 4096) + 0xFFF`
does not wrap (the count is computed in wrapping `usize` arithmetic). -/
theorem loader_load_mappings (alloc : Nat → Nat → Nat)
    (entries : List Elf.ProgramHeader64) (i : Nat)
    (h : ∀ e ∈ entries, Loader.isLoad e = true →
        e.size_in_memory + e.vma % 4096 + 0xFFF < Loader.U64) :
    Loader.loadSegments alloc i entries = Loader.specMappings alloc i entries := by
  induction entries generalizing i with
  | nil => rfl
  | cons e es ih =>
    have hh : ∀ x ∈ es, Loader.isLoad x = true →
        x.size_in_memory + x.vma % 4096 + 0xFFF < Loader.U64 :=
      fun x hx hlx => h x (List.mem_cons_of_mem e hx) hlx
    cases hl : Loader.isLoad e
    · simp [Loader.loadSegments, Loader.specMappings, hl, ih i hh]
    · have hcount := Loader.vmaPageCount_eq_spec e (h e (List.mem_cons_self e es) hl)
      simp [Loader.loadSegments, Loader.specMappings, hl, hcount, ih (i + 1) hh]

/-- Segment A of the spec's section 8 scenario: `virtualAddress 0x1000`,
`fileSize 0x10`, `memorySize 0x20`, of `Load` kind. -/
def segmentA : Elf.ProgramHeader64 where
  segment_type := 1
  flags := 0
  offset := 0x1000
  vma := 0x1000
  lma := 0x1000
  size_in_file := 0x10
  size_in_memory := 0x20
  align := 0x1000

/-- C2 witness: the amended mapping theorem applied to the one-segment image
holding `segmentA` and a constant allocator. -/
theorem loader_load_mappings_witness :
    Loader.loadSegments (fun _ _ => 0x5000) 0 [segmentA]
      = Loader.specMappings (fun _ _ => 0x5000) 0 [segmentA] :=
  loader_load_mappings (fun _ _ => 0x5000) [segmentA] 0 (by decide)

end OscOs

namespace OscOs

namespace Loader

/-! ## Copy and zero-fill of one segment — loader/mod.rs lines 97-111 -/

/-- Modelled from the spec: `ELF64::program_entry_data` is invoked at
loader/mod.rs line 101 but its definition does not appear in the sources.
Spec section 4.3 step 5 says the copy source is `fileSize` bytes of the
image buffer starting at `fileOffset`. -/
def programEntryData (image : List Nat) (e : Elf.ProgramHeader64) : List Nat :=
  (image.drop e.offset).take e.size_in_file

/-- Overwrite `data.length` bytes of `region` starting at `start`: the list
form of `target[start..start+len].copy_from_slice(data)` (line 103) and of
the byte store loop (lines 109-111), exact when `start + data.length` is
within bounds (out of bounds the Rust slice indexing panics). -/
def writeRange (region : List Nat) (start : Nat) (data : List Nat) : List Nat :=
  region.take start ++ data ++ region.drop (start + data.length)

/-- Lines 97-111 of loader/mod.rs for one `Load` segment: the allocated
region (`vma_page_count << 12` bytes) after the copy of the segment's file
bytes to `vma_offset` and the zero fill of the
`zero_bytes = size_in_memory - size_in_file` bytes that follow (`u64`
subtraction, in range when `size_in_file <= size_in_memory`). -/
def loadSegmentRegion (image : List Nat) (e : Elf.ProgramHeader64)
    (region : List Nat) : List Nat :=
  writeRange
    (writeRange region (vmaOffset e) (programEntryData image e))
    (vmaOffset e + e.size_in_file)
    (List.replicate (e.size_in_memory - e.size_in_file) 0)

/-- `writeRange` keeps the region's length when the write is in bounds. -/
theorem writeRange_length (r : List Nat) (s : Nat) (d : List Nat)
    (h : s + d.length ≤ r.length) :
    (writeRange r s d).length = r.length := by
  unfold writeRange
  simp
  omega

/-- Dropping up to the write position exposes the written bytes followed by
the untouched tail. -/
theorem writeRange_drop (r : List Nat) (s : Nat) (d : List Nat)
    (h : s ≤ r.length) :
    (writeRange r s d).drop s = d ++ r.drop (s + d.length) := by
  have hlen : (r.take s).length = s := by
    simp
    omega
  unfold writeRange
  rw [List.append_assoc, List.drop_left' hlen]

end Loader

end OscOs

namespace OscOs

namespace Loader

/-- `writeRange` keeps a prefix-take of the written region exact: taking up
to the end of the written data yields the untouched prefix and the data. -/
theorem writeRange_take (r : List Nat) (s : Nat) (d : List Nat) (n : Nat)
    (h : s ≤ r.length) (hn : n = s + d.length) :
    (writeRange r s d).take n = r.take s ++ d := by
  have hlen : (r.take s ++ d).length = n := by
    simp
    omega
  unfold writeRange
  rw [List.take_left' hlen]

/-- Dropping strictly before the write position splits the result into the
kept slice of the old region, the written data, and the untouched tail. -/
theorem writeRange_drop_lt (r : List Nat) (s t : Nat) (d : List Nat)
    (ht : t ≤ s) (h : s ≤ r.length) :
    (writeRange r s d).drop t
      = (r.take s).drop t ++ d ++ r.drop (s + d.length) := by
  have hlen : t ≤ (r.take s).length := by
    simp
    omega
  unfold writeRange
  rw [List.append_assoc, List.drop_append_of_le_length hlen, ← List.append_assoc]

end Loader

/-! ## Theorem for claim C3 -/

/-- C3: for every `Load` segment with `memorySize >= fileSize` whose loading
completes (the copy source lies inside the image, the region is the
allocated `pageCount * 4096` bytes, and the page-count arithmetic does not
wrap), after loading, bytes `[pageOffset, pageOffset + fileSize)` of the
region equal bytes `[fileOffset, fileOffset + fileSize)` of the source
image, and bytes `[pageOffset + fileSize, pageOffset + memorySize)` of the
region are all zero, where `pageOffset = virtualAddress mod 4096`. -/
theorem load_segment_roundtrip (image : List Nat) (e : Elf.ProgramHeader64)
    (region : List Nat)
    (hmf : e.size_in_file ≤ e.size_in_memory)
    (hdata : e.offset + e.size_in_file ≤ image.length)
    (hreg : region.length = Loader.vmaPageCount e * 4096)
    (hnof : e.size_in_memory + e.vma % 4096 + 0xFFF < Loader.U64) :
    ((Loader.loadSegmentRegion image e region).drop (e.vma % 4096)).take e.size_in_file
        = (image.drop e.offset).take e.size_in_file
    ∧ ((Loader.loadSegmentRegion image e region).drop
          (e.vma % 4096 + e.size_in_file)).take (e.size_in_memory - e.size_in_file)
        = List.replicate (e.size_in_memory - e.size_in_file) 0 := by
  have hv : Loader.vmaOffset e = e.vma % 4096 := Loader.vmaOffset_eq_mod e
  have hd : (Loader.programEntryData image e).length = e.size_in_file := by
    simp [Loader.programEntryData]
    omega
  have hL : e.vma % 4096 + e.size_in_memory ≤ region.length := by
    rw [hreg, Loader.vmaPageCount_eq_spec e hnof, Loader.specPageCount]
    omega
  have hoffL : e.vma % 4096 ≤ region.length := by omega
  have hr1len : (Loader.writeRange region (e.vma % 4096)
      (Loader.programEntryData image e)).length = region.length :=
    Loader.writeRange_length _ _ _ (by rw [hd]; omega)
  have htake : (Loader.writeRange region (e.vma % 4096)
        (Loader.programEntryData image e)).take (e.vma % 4096 + e.size_in_file)
      = region.take (e.vma % 4096) ++ Loader.programEntryData image e :=
    Loader.writeRange_take _ _ _ _ hoffL (by rw [hd])
  have hAlen : ((region.take (e.vma % 4096))).length = e.vma % 4096 := by
    simp
    omega
  unfold Loader.loadSegmentRegion
  rw [hv]
  constructor
  · rw [Loader.writeRange_drop_lt _ _ _ _ (by omega) (by rw [hr1len]; omega)]
    rw [htake, List.drop_left' hAlen, List.append_assoc]
    rw [List.take_left' hd]
    rfl
  · rw [Loader.writeRange_drop _ _ _ (by rw [hr1len]; omega)]
    rw [List.take_left' (List.length_replicate _ _)]

end OscOs

namespace OscOs

/-- A small `Load` segment for the C3 witness: two file bytes at image
offset 2, memory size 4, virtual address `0x1001` (page offset 1). -/
def segmentW : Elf.ProgramHeader64 where
  segment_type := 1
  flags := 0
  offset := 2
  vma := 0x1001
  lma := 0
  size_in_file := 2
  size_in_memory := 4
  align := 0x1000

/-- The five-byte source image for the C3 witness. -/
def imageW : List Nat := [9, 9, 5, 6, 9]

/-- The allocated region for the C3 witness, pre-filled with a non-zero
byte so the zero-fill is observable. -/
def regionW : List Nat := List.replicate (Loader.vmaPageCount segmentW * 4096) 7

/-- C3 witness: the round-trip theorem applied to the concrete segment
`segmentW`, image `imageW` and region `regionW`. -/
theorem load_segment_roundtrip_witness :
    ((Loader.loadSegmentRegion imageW segmentW regionW).drop
          (segmentW.vma % 4096)).take segmentW.size_in_file
        = (imageW.drop segmentW.offset).take segmentW.size_in_file
    ∧ ((Loader.loadSegmentRegion imageW segmentW regionW).drop
          (segmentW.vma % 4096 + segmentW.size_in_file)).take
            (segmentW.size_in_memory - segmentW.size_in_file)
        = List.replicate (segmentW.size_in_memory - segmentW.size_in_file) 0 :=
  load_segment_roundtrip imageW segmentW regionW (by decide) (by decide)
    (by simp [regionW]) (by decide)

end OscOs

namespace OscOs

/-! ## Boot handoff state machine — src/boot-stub/src/loader/mod.rs

`Loader<Phase>` is phase-typed: `Prepare` holds no data, `Ready` holds the
loaded kernel bytes.  The firmware (UEFI boot services plus file protocols)
is the external collaborator; it is modelled as a record of oracles, one per
external call the loader makes, each returning `Except` with the raw status
code on failure.
-/

namespace Prep

/-- `BootError` (loader/mod.rs lines 17-24); the carried `Status` is its
raw status code.  (The spec section 7 names these `ImageInfoUnavailable`,
`FileSystemUnavailable`, `VolumeUnavailable`, `KernelOpenFailed`,
`KernelStatFailed` and `KernelReadFailed` respectively.) -/
inductive BootError where
  | RetrieveImageInfoFailed (s : Nat)
  | RetrieveSimpleFileSystemFailed (s : Nat)
  | RetrieveVolumeFailed (s : Nat)
  | OpenKernelFailed (s : Nat)
  | StatKernelFailed (s : Nat)
  | ReadKernelFailed (s : Nat)
deriving DecidableEq, Repr

/-- The six external calls `Loader::<Prepare>::prepare` makes, in order
(loader/mod.rs lines 220-272). -/
inductive PrepCall where
  | handleProtocolLoadedImage
  | handleProtocolSimpleFileSystem
  | openVolume
  | openKernelFile
  | getKernelInfo
  | readKernelFile
deriving DecidableEq, Repr

/-- The firmware as seen by `prepare`: one oracle per external call, failure
carrying the raw status code.  `getKernelInfo` returns the stat'd file size;
`readKernelFile` is given that size (the length of the freshly allocated
buffer) and returns the bytes read into it. -/
structure PrepFirmware where
  handleProtocolLoadedImage : Except Nat Unit
  handleProtocolSimpleFileSystem : Except Nat Unit
  openVolume : Except Nat Unit
  openKernelFile : Except Nat Unit
  getKernelInfo : Except Nat Nat
  readKernelFile : Nat → Except Nat (List Nat)

/-- `Loader::<Prepare>::prepare` (loader/mod.rs lines 220-272), paired with
the ordered list of external calls it attempted.  Every step maps its error
to its distinct `BootError` and returns early via the source's `?`
operator. -/
def prepare (fw : PrepFirmware) : Except BootError (List Nat) × List PrepCall :=
  match fw.handleProtocolLoadedImage with
  | Except.error s =>
    (Except.error (BootError.RetrieveImageInfoFailed s),
      [PrepCall.handleProtocolLoadedImage])
  | Except.ok _ =>
  match fw.handleProtocolSimpleFileSystem with
  | Except.error s =>
    (Except.error (BootError.RetrieveSimpleFileSystemFailed s),
      [PrepCall.handleProtocolLoadedImage, PrepCall.handleProtocolSimpleFileSystem])
  | Except.ok _ =>
  match fw.openVolume with
  | Except.error s =>
    (Except.error (BootError.RetrieveVolumeFailed s),
      [PrepCall.handleProtocolLoadedImage, PrepCall.handleProtocolSimpleFileSystem,
        PrepCall.openVolume])
  | Except.ok _ =>
  match fw.openKernelFile with
  | Except.error s =>
    (Except.error (BootError.OpenKernelFailed s),
      [PrepCall.handleProtocolLoadedImage, PrepCall.handleProtocolSimpleFileSystem,
        PrepCall.openVolume, PrepCall.openKernelFile])
  | Except.ok _ =>
  match fw.getKernelInfo with
  | Except.error s =>
    (Except.error (BootError.StatKernelFailed s),
      [PrepCall.handleProtocolLoadedImage, PrepCall.handleProtocolSimpleFileSystem,
        PrepCall.openVolume, PrepCall.openKernelFile, PrepCall.getKernelInfo])
  | Except.ok file_size =>
  match fw.readKernelFile file_size with
  | Except.error s =>
    (Except.error (BootError.ReadKernelFailed s),
      [PrepCall.handleProtocolLoadedImage, PrepCall.handleProtocolSimpleFileSystem,
        PrepCall.openVolume, PrepCall.openKernelFile, PrepCall.getKernelInfo,
        PrepCall.readKernelFile])
  | Except.ok data =>
    (Except.ok data,
      [PrepCall.handleProtocolLoadedImage, PrepCall.handleProtocolSimpleFileSystem,
        PrepCall.openVolume, PrepCall.openKernelFile, PrepCall.getKernelInfo,
        PrepCall.readKernelFile])

end Prep

/-! ## Theorem for claim C5 -/

/-- C5: if `prepare()` reaches the stat call (the four calls before it
succeed) and the stat fails with firmware status code `c`, then `prepare()`
returns exactly the stat-failure error carrying `c` (the source's
`StatKernelFailed`, the spec's `KernelStatFailed`), the attempted calls are
exactly the first five in order, and in particular the read is never
attempted — the first failure short-circuits. -/
theorem prepare_stat_failure (fw : Prep.PrepFirmware) (c : Nat)
    (h1 : fw.handleProtocolLoadedImage = Except.ok ())
    (h2 : fw.handleProtocolSimpleFileSystem = Except.ok ())
    (h3 : fw.openVolume = Except.ok ())
    (h4 : fw.openKernelFile = Except.ok ())
    (h5 : fw.getKernelInfo = Except.error c) :
    (Prep.prepare fw).1 = Except.error (Prep.BootError.StatKernelFailed c)
    ∧ (Prep.prepare fw).2
        = [Prep.PrepCall.handleProtocolLoadedImage,
           Prep.PrepCall.handleProtocolSimpleFileSystem,
           Prep.PrepCall.openVolume, Prep.PrepCall.openKernelFile,
           Prep.PrepCall.getKernelInfo]
    ∧ Prep.PrepCall.readKernelFile ∉ (Prep.prepare fw).2 := by
  unfold Prep.prepare
  rw [h1, h2, h3, h4, h5]
  refine ⟨rfl, rfl, ?_⟩
  show Prep.PrepCall.readKernelFile ∉
    [Prep.PrepCall.handleProtocolLoadedImage,
     Prep.PrepCall.handleProtocolSimpleFileSystem,
     Prep.PrepCall.openVolume, Prep.PrepCall.openKernelFile,
     Prep.PrepCall.getKernelInfo]
  decide

/-- The concrete firmware for the C5 witness: the first four calls succeed
and the stat call fails with status code 7. -/
def fwStatFail : Prep.PrepFirmware where
  handleProtocolLoadedImage := Except.ok ()
  handleProtocolSimpleFileSystem := Except.ok ()
  openVolume := Except.ok ()
  openKernelFile := Except.ok ()
  getKernelInfo := Except.error 7
  readKernelFile := fun _ => Except.ok []

/-- C5 witness: the stat-failure theorem applied to `fwStatFail`. -/
theorem prepare_stat_failure_witness :
    (Prep.prepare fwStatFail).1 = Except.error (Prep.BootError.StatKernelFailed 7)
    ∧ (Prep.prepare fwStatFail).2
        = [Prep.PrepCall.handleProtocolLoadedImage,
           Prep.PrepCall.handleProtocolSimpleFileSystem,
           Prep.PrepCall.openVolume, Prep.PrepCall.openKernelFile,
           Prep.PrepCall.getKernelInfo]
    ∧ Prep.PrepCall.readKernelFile ∉ (Prep.prepare fwStatFail).2 :=
  prepare_stat_failure fwStatFail 7 rfl rfl rfl rfl rfl

end OscOs

namespace OscOs

namespace Transfer

/-- The firmware as seen by `Loader::<Ready>::transfer_to_kernel`
(loader/mod.rs lines 43-147): the reported memory-map parameters, the
per-call page allocator (call index and page count to physical address),
the memory-map capture (buffer length to result, abstracted), and
`exit_boot_services` (buffer length to result, abstracted). -/
structure MemFirmware where
  mapSize : Nat
  entrySize : Nat
  allocatePages : Nat → Nat → Except Nat Nat
  memoryMap : Nat → Except Nat Unit
  exitBootServices : Nat → Except Nat Unit

/-- Observable events of the memory-inventory phase. -/
inductive TransferEvent where
  | queryMapSize
  | captureAttempt (bufLen : Nat)
  | exitAttempt (bufLen : Nat)
deriving DecidableEq, Repr

/-- Where control ends up when `transfer_to_kernel` runs.  `fatal` is a
panic out of `unwrap_success`; `halt` is the final empty infinite loop at
loader/mod.rs line 146, which spins forever; `jumpToEntry` would be a
transfer of control to the kernel entry point — no statement of the
function's body produces it. -/
inductive TransferOutcome where
  | fatal (status : Nat)
  | halt
  | jumpToEntry (entry : Nat)
deriving DecidableEq, Repr

/-- The memory-inventory phase of `transfer_to_kernel` (loader/mod.rs lines
124-146), paired with its event trace: one `memory_map_params` size query;
one capture into a fresh buffer of `map_size << 2` bytes, unwrapped; then
`exit_boot_services` with a second fresh buffer of the same size computed
from the same, single query, unwrapped; then the empty infinite loop. -/
def memoryPhase (fw : MemFirmware) : TransferOutcome × List TransferEvent :=
  match fw.memoryMap (fw.mapSize <<< 2) with
  | Except.error s =>
    (TransferOutcome.fatal s,
      [TransferEvent.queryMapSize, TransferEvent.captureAttempt (fw.mapSize <<< 2)])
  | Except.ok _ =>
    match fw.exitBootServices (fw.mapSize <<< 2) with
    | Except.error s =>
      (TransferOutcome.fatal s,
        [TransferEvent.queryMapSize, TransferEvent.captureAttempt (fw.mapSize <<< 2),
          TransferEvent.exitAttempt (fw.mapSize <<< 2)])
    | Except.ok _ =>
      (TransferOutcome.halt,
        [TransferEvent.queryMapSize, TransferEvent.captureAttempt (fw.mapSize <<< 2),
          TransferEvent.exitAttempt (fw.mapSize <<< 2)])

/-- The first allocation failure of the load loop (loader/mod.rs lines
68-114), if any: each `Load` entry's `allocate_pages` call is unwrapped, so
the first error panics the boot. -/
def firstAllocError (fw : MemFirmware) :
    Nat → List Elf.ProgramHeader64 → Option Nat
  | _, [] => none
  | i, e :: es =>
    match fw.allocatePages i (Loader.vmaPageCount e) with
    | Except.error s => Option.some s
    | Except.ok _ => firstAllocError fw (i + 1) es

/-- `Loader::<Ready>::transfer_to_kernel` (loader/mod.rs lines 43-147),
reduced to where control ends up: parse the kernel image (`ELF64::open`,
unvalidated), walk the `Load` segments allocating pages (a failure panics),
run the memory-inventory phase and `exit_boot_services`, and finally enter
the empty infinite loop — the function never returns and never jumps to the
image's entry point. -/
def transfer_to_kernel (image : List Nat) (fw : MemFirmware) : TransferOutcome :=
  match firstAllocError fw 0
      (((Elf.ELF64.open image).program_entries).filter Loader.isLoad) with
  | Option.some s => TransferOutcome.fatal s
  | Option.none => (memoryPhase fw).1

end Transfer

/-! ## Theorems for claims C1 and C4 -/

/-- A trivially well-formed kernel image for C1's concrete run: 64 zero
header bytes (entry address 0, no program-header entries). -/
def demoImage : List Nat := List.replicate 64 0

/-- A firmware on which every external call of the transfer phase
succeeds. -/
def fwAllOk : Transfer.MemFirmware where
  mapSize := 0x400
  entrySize := 0x30
  allocatePages := fun _ _ => Except.ok 0x100000
  memoryMap := fun _ => Except.ok ()
  exitBootServices := fun _ => Except.ok ()

/-- C1: `transfer_to_kernel` never transfers control to the image's entry
address — under every image and firmware its outcome is a panic or the
final infinite loop, never a jump — and on a concrete Ready-state run in
which every firmware call succeeds (image `demoImage`, firmware `fwAllOk`)
it ends in the infinite loop after relinquishing boot services.  (It does
diverge as the claim demands, but by halting, not by entering the
kernel.) -/
theorem transfer_to_kernel_never_jumps :
    (∀ image fw entry,
        Transfer.transfer_to_kernel image fw ≠ Transfer.TransferOutcome.jumpToEntry entry)
    ∧ Transfer.transfer_to_kernel demoImage fwAllOk = Transfer.TransferOutcome.halt := by
  constructor
  · intro image fw entry
    unfold Transfer.transfer_to_kernel Transfer.memoryPhase
    split
    · simp
    · split
      · simp
      · split <;> simp
  · decide

/-- The firmware for the C4 counterexample: the memory-map capture reports
failure (the firmware's too-small report, status 5) no matter the buffer. -/
def fwTooSmall : Transfer.MemFirmware where
  mapSize := 0x400
  entrySize := 0x30
  allocatePages := fun _ _ => Except.ok 0x100000
  memoryMap := fun _ => Except.error 5
  exitBootServices := fun _ => Except.ok ()

/-- The number of capture attempts in a transfer-phase event trace. -/
def captureAttemptCount (t : List Transfer.TransferEvent) : Nat :=
  t.countP fun ev =>
    match ev with
    | Transfer.TransferEvent.captureAttempt _ => true
    | _ => false

/-- C4 counterexample: when the firmware reports the capture buffer as too
small, the code does NOT retry — it makes exactly one capture attempt (the
claim requires a second, re-sized one) and the failure is fatal
(`unwrap_success`). -/
theorem memory_capture_no_retry_counterexample :
    captureAttemptCount (Transfer.memoryPhase fwTooSmall).2 = 1
    ∧ captureAttemptCount (Transfer.memoryPhase fwTooSmall).2 ≠ 2
    ∧ (Transfer.memoryPhase fwTooSmall).1 = Transfer.TransferOutcome.fatal 5 := by
  decide

/-- C4 amended: before relinquishing boot services, `transfer_to_kernel`
queries the memory-inventory size exactly once and allocates a scratch
buffer of FOUR TIMES the queried map size (`map_size << 2`); if the
firmware reports the capture as failed (for example too small), there is no
retry: the trace holds the single query and the single capture attempt, and
the outcome is fatal with the firmware's status code. -/
theorem memory_phase_single_query_no_retry (fw : Transfer.MemFirmware) (s : Nat)
    (h : fw.memoryMap (fw.mapSize <<< 2) = Except.error s) :
    (Transfer.memoryPhase fw).2
        = [Transfer.TransferEvent.queryMapSize,
           Transfer.TransferEvent.captureAttempt (fw.mapSize <<< 2)]
    ∧ (Transfer.memoryPhase fw).1 = Transfer.TransferOutcome.fatal s := by
  unfold Transfer.memoryPhase
  rw [h]
  exact ⟨rfl, rfl⟩

/-- C4 witness: the no-retry theorem applied to the concrete firmware
`fwTooSmall`. -/
theorem memory_phase_single_query_no_retry_witness :
    (Transfer.memoryPhase fwTooSmall).2
        = [Transfer.TransferEvent.queryMapSize,
           Transfer.TransferEvent.captureAttempt (fwTooSmall.mapSize <<< 2)]
    ∧ (Transfer.memoryPhase fwTooSmall).1 = Transfer.TransferOutcome.fatal 5 :=
  memory_phase_single_query_no_retry fwTooSmall 5 rfl

end OscOs
